import Mathlib

/-!
Verification of the police-data ingestion pipeline and proximity-query
service against its natural-language specification.

The development shallowly embeds the Python sources:
  * `src/police_data/src/postgre/upload_to_prod.py` — the PostgreSQL
    batch controller (`main`), staging loader (`write_csv_to_staging`),
    merge step (`upload_staging_to_prod`), staging cleanup
    (`truncate_staging`) and partition catalog
    (`extract_relevant_csv_files`);
  * `src/police_data/src/bigquery/prod/insert.py` — the BigQuery merge
    engine (`load_staging_to_production`);
  * `src/police_data/src/extract/common/transformations.py` — the record
    normalizer (`format_dataframe`);
  * `src/app.py` — the proximity-query endpoint (`get_crimes`).

Database tables are modelled as lists of rows; nullable SQL/pandas values
are `Option`s; Python exceptions are `Except` values; the external
environment (whether a given database operation succeeds) is passed in as
explicit flags, mirroring the `try/except` structure of the source.
-/

namespace PoliceData

/-! ## PostgreSQL pipeline: rows and tables

`crimes_staging` holds the eight canonical columns, all nullable from the
pipeline's point of view; `crimes_prod` adds the derived `geo_point`
(computed by `ST_SetSRID(ST_MakePoint(longitude, latitude), 4326)` at
merge time).  Coordinates are modelled as integers: the claims under
study only ever test them for nullness and equality. -/

structure PgStagingRow where
  crime_id : Option String
  month_year : Option String
  police_force : Option String
  longitude : Option Int
  latitude : Option Int
  lsoa_code : Option String
  crime_type : Option String
  location_description : Option String
deriving DecidableEq, Repr

/-- `ST_MakePoint` / `ST_GEOGPOINT`: a geodetic point; SQL returns NULL
when either coordinate is NULL. -/
structure GeoPoint where
  lon : Int
  lat : Int
deriving DecidableEq, Repr

def makeGeoPoint : Option Int → Option Int → Option GeoPoint
  | some lon, some lat => some ⟨lon, lat⟩
  | _, _ => none

structure PgProdRow where
  crime_id : Option String
  month_year : Option String
  police_force : Option String
  longitude : Option Int
  latitude : Option Int
  lsoa_code : Option String
  crime_type : Option String
  location_description : Option String
  geo_point : Option GeoPoint
deriving DecidableEq, Repr

/-- The row produced by the `INSERT INTO crimes_prod ... SELECT ... FROM
crimes_staging` statement of `upload_staging_to_prod` for one staging
row: the eight columns are copied and `geo_point` is derived. -/
def pgStagingToProd (r : PgStagingRow) : PgProdRow :=
  { crime_id := r.crime_id
    month_year := r.month_year
    police_force := r.police_force
    longitude := r.longitude
    latitude := r.latitude
    lsoa_code := r.lsoa_code
    crime_type := r.crime_type
    location_description := r.location_description
    geo_point := makeGeoPoint r.longitude r.latitude }

/-! ## PostgreSQL pipeline: the batch controller (`main`)

Each of `write_csv_to_staging`, `upload_staging_to_prod` and
`truncate_staging` wraps its single SQL statement in
`try/except Exception: log.error(...)`: a database failure is logged and
swallowed, never propagated to `main`.  Whether the underlying database
operation succeeds is an environment input, supplied per call as a
`Bool` flag attached to the file being processed. -/

inductive LogEvent where
  /-- `log.error(f"Error loading CSV: {e}")` in `write_csv_to_staging`. -/
  | errorLoadingCsv
  /-- `log.error(f"Error uploading to production: {e}")` in
  `upload_staging_to_prod`. -/
  | errorUploadingToProd
deriving DecidableEq, Repr

/-- One input file, as the batch controller sees it: the staging rows its
CSV holds, plus environment flags telling whether the staging `COPY`
commits (`stageOk`) and whether the merge transaction fired right after
this file (if any) commits (`mergeOk`). -/
structure FileInput where
  rows : List PgStagingRow
  stageOk : Bool
  mergeOk : Bool
deriving DecidableEq, Repr

/-- `write_csv_to_staging`: the `COPY ... FROM STDIN` either commits all
of the file's rows into staging or (on any exception) commits nothing and
logs the error. -/
def write_csv_to_staging (ok : Bool) (rows staging : List PgStagingRow) :
    List PgStagingRow × List LogEvent :=
  if ok then (staging ++ rows, []) else (staging, [.errorLoadingCsv])

/-- `upload_staging_to_prod`: a single `INSERT INTO crimes_prod ...
SELECT ... FROM crimes_staging` statement.  On success every staging row
is appended to production (no key check, no `ON CONFLICT`); on failure
the transaction commits nothing and the exception is logged and
swallowed. -/
def upload_staging_to_prod (ok : Bool) (staging : List PgStagingRow)
    (prod : List PgProdRow) : List PgProdRow × List LogEvent :=
  if ok then (prod ++ staging.map pgStagingToProd, [])
  else (prod, [.errorUploadingToProd])

/-- `truncate_staging`: `TRUNCATE TABLE crimes_staging;` (modelled as
succeeding; its own failure path is not at issue in any claim). -/
def truncate_staging (_staging : List PgStagingRow) : List PgStagingRow := []

/-- The mutable state of `main`'s loop over files, together with
observation counters for the calls it makes. -/
structure RunState where
  staging : List PgStagingRow
  prod : List PgProdRow
  loadingCount : Nat
  mergeInvocations : Nat
  truncateInvocations : Nat
  log : List LogEvent
deriving DecidableEq, Repr

def initialRunState : RunState :=
  { staging := [], prod := [], loadingCount := 0, mergeInvocations := 0
    truncateInvocations := 0, log := [] }

/-- One iteration of `main`'s `for file_path in files` loop:
stage the file, increment `loading_count`, and when the counter reaches 5
merge staging into production, truncate staging, and reset the counter. -/
def processFile (st : RunState) (f : FileInput) : RunState :=
  let (staging1, e1) := write_csv_to_staging f.stageOk f.rows st.staging
  let count := st.loadingCount + 1
  if count = 5 then
    let (prod1, e2) := upload_staging_to_prod f.mergeOk staging1 st.prod
    { staging := truncate_staging staging1
      prod := prod1
      loadingCount := 0
      mergeInvocations := st.mergeInvocations + 1
      truncateInvocations := st.truncateInvocations + 1
      log := st.log ++ e1 ++ e2 }
  else
    { st with staging := staging1, loadingCount := count, log := st.log ++ e1 }

/-- `main` (after the partition catalog has produced `files`). -/
def pgMain (files : List FileInput) : RunState :=
  files.foldl processFile initialRunState

/-! ## Year-month strings

Both `datetime.strptime(s, "%Y-%m")` (partition catalog) and
`PARSE_DATE('%Y-%m', month)` (BigQuery merge) parse a string into a
year-month pair; `current.strftime("%Y-%m")` formats one back,
zero-padding the year to four digits and the month to two.  Strings are
handled through their character lists. -/

/-- `s.split('-')` on character lists (separator is a single character). -/
def splitOnChar (sep : Char) : List Char → List (List Char)
  | [] => [[]]
  | c :: cs =>
    if c = sep then [] :: splitOnChar sep cs
    else
      match splitOnChar sep cs with
      | [] => [[c]]
      | h :: t => (c :: h) :: t

/-- Digit-string to number (no sign, no whitespace, as matched by the
`%Y` / `%m` directives). -/
def charsToNat? (l : List Char) : Option Nat :=
  if l ≠ [] ∧ l.all Char.isDigit then
    some (l.foldl (fun acc c => acc * 10 + (c.toNat - 48)) 0)
  else none

/-- `datetime.strptime(s, "%Y-%m")` (and `PARSE_DATE('%Y-%m', s)`): the
year is 1–4 digits with value 1–9999, the month 1–2 digits with value
1–12, joined by a single `-`. -/
def parseYM (s : String) : Option (Nat × Nat) :=
  match splitOnChar '-' s.data with
  | [y, m] =>
    if y.length ≤ 4 ∧ m.length ≤ 2 then
      match charsToNat? y, charsToNat? m with
      | some yn, some mn =>
        if 1 ≤ yn ∧ yn ≤ 9999 ∧ 1 ≤ mn ∧ mn ≤ 12 then some (yn, mn) else none
      | _, _ => none
    else none
  | _ => none

/-! ## BigQuery merge engine (`load_staging_to_production`)

The staging table carries the raw source column names (`month`,
`falls_within`, `location`); the `MERGE` statement's `USING` subquery
keeps only rows with non-NULL `longitude` and non-NULL `crime_id`,
parses `month`, renames the columns and derives `geo_point`; each source
row that matches no production row on
`prod.crime_id = stage.crime_id AND prod.month_year = stage.month_year`
(SQL three-valued equality: a NULL on either side never matches) is
inserted.  A `PARSE_DATE` failure aborts the whole query job. -/

structure BqStagingRow where
  crime_id : Option String
  month : Option String
  falls_within : Option String
  longitude : Option Int
  latitude : Option Int
  lsoa_code : Option String
  crime_type : Option String
  location : Option String
deriving DecidableEq, Repr

structure BqProdRow where
  crime_id : Option String
  /-- A `DATE` at month granularity (`PARSE_DATE('%Y-%m', ...)` gives the
  first of the month), modelled as the (year, month) pair. -/
  month_year : Option (Nat × Nat)
  police_force : Option String
  longitude : Option Int
  latitude : Option Int
  lsoa_code : Option String
  crime_type : Option String
  location_description : Option String
  geo_point : Option GeoPoint
deriving DecidableEq, Repr

/-- `PARSE_DATE('%Y-%m', month)`: NULL maps to NULL; an unparseable
non-NULL string raises a query error. -/
def parseDateField : Option String → Except String (Option (Nat × Nat))
  | none => .ok none
  | some s =>
    match parseYM s with
    | some ym => .ok (some ym)
    | none => .error ("PARSE_DATE failed")

/-- `WHERE longitude IS NOT NULL AND crime_id IS NOT NULL` (note:
`latitude` is not constrained). -/
def bqPassFilter (r : BqStagingRow) : Bool :=
  r.longitude.isSome && r.crime_id.isSome

/-- The `USING` subquery's projection of one staging row. -/
def bqStageToProd (r : BqStagingRow) : Except String BqProdRow :=
  match parseDateField r.month with
  | .error e => .error e
  | .ok my =>
    .ok { crime_id := r.crime_id
          month_year := my
          police_force := r.falls_within
          longitude := r.longitude
          latitude := r.latitude
          lsoa_code := r.lsoa_code
          crime_type := r.crime_type
          location_description := r.location
          geo_point := makeGeoPoint r.longitude r.latitude }

/-- `mapM` over `Except`, written recursively for use in proofs. -/
def mapME (f : α → Except ε β) : List α → Except ε (List β)
  | [] => .ok []
  | x :: xs =>
    match f x with
    | .error e => .error e
    | .ok y =>
      match mapME f xs with
      | .error e => .error e
      | .ok ys => .ok (y :: ys)

/-- SQL equality: `a = b` is TRUE only when both sides are non-NULL and
equal. -/
def sqlEq [DecidableEq α] : Option α → Option α → Bool
  | some x, some y => decide (x = y)
  | _, _ => false

/-- The `ON` clause of the MERGE. -/
def bqKeyMatch (p s : BqProdRow) : Bool :=
  sqlEq p.crime_id s.crime_id && sqlEq p.month_year s.month_year

/-- `load_staging_to_production`: the MERGE statement.  Source rows are
matched against the pre-merge production table (MERGE is a snapshot
join), and every `WHEN NOT MATCHED` source row is inserted. -/
def load_staging_to_production (staging : List BqStagingRow)
    (prod : List BqProdRow) : Except String (List BqProdRow) :=
  match mapME bqStageToProd (staging.filter bqPassFilter) with
  | .error e => .error e
  | .ok src =>
    .ok (prod ++ src.filter (fun s => ! prod.any (fun p => bqKeyMatch p s)))

/-- What reaches the log around one call to `load_staging_to_production`
(on failure the exception propagates to the `__main__` caller, which logs
it).  No message carries a row count. -/
def load_staging_to_production_logs (staging : List BqStagingRow)
    (prod : List BqProdRow) : List String :=
  match load_staging_to_production staging prod with
  | .ok _ =>
    ["Starting query job to load data from staging to production...",
     "Data successfully loaded into production table."]
  | .error e =>
    ["Starting query job to load data from staging to production...",
     "Failed to load data from staging to production: " ++ e]

/-! ## Partition catalog (`extract_relevant_csv_files`)

The catalog checks the root folder, parses the window bounds with
`strptime("%Y-%m")`, generates the list of `"YYYY-MM"` strings from
`start` to `end` by repeated month increment, then walks the tree and
keeps each `*.csv` file whose `"<parent dir>-<file name without .csv>"`
string occurs in that list.  File paths are modelled as their lists of
`/`-separated components; the walk itself is modelled by the list of file
paths it yields, in walk order. -/

/-- `fname.replace(".csv", "")`: remove every (non-overlapping, leftmost
first) occurrence of `".csv"` (`fuel ≥ length` always suffices: each
step consumes at least one character). -/
def removeCsvAllFuel : Nat → List Char → List Char
  | 0, l => l
  | _ + 1, [] => []
  | fuel + 1, c :: cs =>
    if c = '.' ∧ cs.take 3 = ['c', 's', 'v'] then removeCsvAllFuel fuel (cs.drop 3)
    else c :: removeCsvAllFuel fuel cs

abbrev Cell := Option String

structure DataFrame where
  columns : List String
  rows : List (List Cell)
deriving DecidableEq, Repr

/-- `col.replace(" ", "_").lower()`. -/
def pyNormalizeCol (s : String) : String :=
  String.mk (s.data.map (fun c => if c = ' ' then '_' else c.toLower))

def SELECT_COLS : List String :=
  ["crime_id", "month", "falls_within", "longitude", "latitude",
   "lsoa_code", "crime_type", "location"]

def RENAMED_COLUMNS : List String :=
  ["crime_id", "month_year", "police_force", "longitude", "latitude",
   "lsoa_code", "crime_type", "location_description"]

/-- The column positions `df[SELECT_COLS]` selects: for each requested
label, *every* occurrence of that label among `cols`, in request order —
pandas keeps all occurrences of a duplicated label, so the selected
frame can be wider than the request list. -/
def selectIdxs (cols : List String) : List Nat :=
  SELECT_COLS.flatMap fun c =>
    (List.range cols.length).filter fun i => cols.getD i "" = c

/-- One row of `df[SELECT_COLS]`. -/
def selectRow (cols : List String) (row : List Cell) : List Cell :=
  (selectIdxs cols).map fun i => row.getD i none

/-- Column accessors on the renamed (8-column) frame: position of the
label in `RENAMED_COLUMNS`. -/
def rowCrimeId (r : List Cell) : Cell := r.getD 0 none

def rowLongitude (r : List Cell) : Cell := r.getD 3 none

def rowLatitude (r : List Cell) : Cell := r.getD 4 none

/-- `drop_duplicates()`: keep the first of every group of equal rows. -/
def dedupFirstAux [DecidableEq α] (seen : List α) : List α → List α
  | [] => []
  | x :: xs =>
    if x ∈ seen then dedupFirstAux seen xs
    else x :: dedupFirstAux (x :: seen) xs

def dedupFirst [DecidableEq α] (l : List α) : List α := dedupFirstAux [] l

inductive NormalizerError where
  | valueError (msg : String)
  | keyError (msg : String)
deriving DecidableEq, Repr

/-- The rows surviving the two `notna` filters, in order. -/
def validRows (rows : List (List Cell)) : List (List Cell) :=
  (rows.filter fun r => (rowLongitude r).isSome && (rowLatitude r).isSome).filter
    fun r => (rowCrimeId r).isSome

/-- `format_dataframe`.  First component: the state of the caller's
DataFrame after the call (its labels are normalized in place unless the
empty-input check fires first); second: the returned frame or the raised
error.  When a normalized label duplicates a required column,
`df[SELECT_COLS]` yields more than 8 columns and the subsequent
`df.columns = RENAMED_COLUMNS` raises pandas' length-mismatch
`ValueError` before any row-level step runs. -/
def format_dataframe (df : DataFrame) :
    DataFrame × Except NormalizerError DataFrame :=
  if df.columns.isEmpty || df.rows.isEmpty then
    (df, .error (.valueError ("Input DataFrame is empty.")))
  else
    let dfMut : DataFrame := { columns := df.columns.map pyNormalizeCol, rows := df.rows }
    if SELECT_COLS.all (fun c => c ∈ dfMut.columns) then
      let idxs := selectIdxs dfMut.columns
      if idxs.length = RENAMED_COLUMNS.length then
        let selectedRows := dfMut.rows.map (selectRow dfMut.columns)
        (dfMut, .ok { columns := RENAMED_COLUMNS, rows := dedupFirst (validRows selectedRows) })
      else
        (dfMut, .error (.valueError ("Length mismatch: Expected axis has "
          ++ toString idxs.length ++ " elements, new values have 8 elements")))
    else
      (dfMut,
       .error (.keyError ("The following required columns are missing from the input DataFrame")))

/-! ## Proximity-query endpoint (`get_crimes` in `app.py`)

The handler runs a `SELECT ... WHERE ST_DWithin(geo_point, point, radius)`
query, raises `HTTPException(404)` when the result set is empty, and
wraps *any* exception escaping the `try` block — `HTTPException`
included, since `HTTPException` subclasses `Exception` — into
`HTTPException(500, str(e))`.  The geodetic radius test itself involves
no control flow, so it is passed in as the row predicate `withinRadius`;
`conn` is `none` when the database connection (or query) fails. -/

inductive PyExc where
  | httpException (status : Nat) (detail : String)
  | dbError (msg : String)
deriving DecidableEq, Repr

/-- Python's `str(e)`: Starlette's `HTTPException.__str__` is
`f"{status_code}: {detail}"`. -/
def pyExcStr : PyExc → String
  | .httpException s d => toString s ++ ": " ++ d
  | .dbError m => m

/-- The `try` block of `get_crimes`. -/
def get_crimes_try (conn : Option (List PgProdRow))
    (withinRadius : PgProdRow → Bool) : Except PyExc (List PgProdRow) :=
  match conn with
  | none => .error (.dbError ("could not connect to server"))
  | some prod =>
    let results := prod.filter withinRadius
    if results.isEmpty then
      .error (.httpException 404 "No crimes found in the given area.")
    else
      .ok results

/-- `get_crimes` as the caller sees it: a result list, or a raised
`HTTPException` as its (status, detail) pair. -/
def get_crimes (conn : Option (List PgProdRow))
    (withinRadius : PgProdRow → Bool) : Except (Nat × String) (List PgProdRow) :=
  match get_crimes_try conn withinRadius with
  | .ok r => .ok r
  | .error e => .error (500, pyExcStr e)

/-! ## Decidability of `Except` equality, and concrete fixtures -/

instance [DecidableEq ε] [DecidableEq α] : DecidableEq (Except ε α) := fun x y =>
  match x, y with
  | .ok a, .ok b => decidable_of_iff (a = b) (by simp)
  | .error a, .error b => decidable_of_iff (a = b) (by simp)
  | .ok _, .error _ => isFalse (by simp)
  | .error _, .ok _ => isFalse (by simp)

/-- A well-formed staging row, as one CSV line yields it. -/
def sampleStagingRow : PgStagingRow :=
  { crime_id := some ("a1"), month_year := some ("2023-01"),
    police_force := some ("Lancashire"), longitude := some 1, latitude := some 2,
    lsoa_code := none, crime_type := some ("burglary"),
    location_description := some ("On or near Park Road") }

/-- One input file holding one staging row, with every database
operation succeeding. -/
def sampleFile : FileInput :=
  { rows := [sampleStagingRow], stageOk := true, mergeOk := true }

/-- Five files staged successfully, but the merge fired after the fifth
file fails. -/
def failingMergeRun : List FileInput :=
  List.replicate 4 sampleFile ++ [{ sampleFile with mergeOk := false }]

/-- A fully populated BigQuery staging row. -/
def bqRowA : BqStagingRow :=
  { crime_id := some ("a1"), month := some ("2023-01"),
    falls_within := some ("Lancashire"), longitude := some 1, latitude := some 2,
    lsoa_code := some ("E01"), crime_type := some ("burglary"),
    location := some ("On or near Park Road") }

/-- Like `bqRowA` but a distinct key. -/
def bqRowB : BqStagingRow := { bqRowA with crime_id := some ("b2") }

/-- Non-null longitude and crime id, but NULL latitude. -/
def bqRowNullLat : BqStagingRow :=
  { bqRowA with crime_id := some ("c3"), latitude := none }

/-- Same `(crime_id, month)` key as `bqRowA`, different payload. -/
def bqRowDupKey : BqStagingRow :=
  { bqRowA with longitude := some 9, location := some ("elsewhere") }

/-- Non-null longitude and crime id, but NULL month. -/
def bqRowNullMonth : BqStagingRow := { bqRowA with month := none }

/-- A raw input table: source column labels, two exactly duplicated
rows, and one row with missing longitude. -/
def rawDf : DataFrame :=
  { columns := ["Crime ID", "Month", "Falls within", "Longitude", "Latitude",
                "LSOA code", "Crime type", "Location"],
    rows := [[some ("a1"), some ("2023-01"), some ("F"), some ("1.0"), some ("2.0"),
              none, some ("t"), some ("l")],
             [some ("a1"), some ("2023-01"), some ("F"), some ("1.0"), some ("2.0"),
              none, some ("t"), some ("l")],
             [some ("b2"), some ("2023-01"), some ("F"), none, some ("2.0"),
              none, some ("t"), some ("l")]] }

/-- A raw input table whose labels `Crime ID` and `crime ID` both
normalize to `crime_id`: every required column is present, yet the
selection is 9 columns wide. -/
def dupLabelDf : DataFrame :=
  { columns := ["Crime ID", "crime ID", "Month", "Falls within", "Longitude",
                "Latitude", "LSOA code", "Crime type", "Location"],
    rows := [[some ("a1"), some ("a9"), some ("2023-01"), some ("F"),
              some ("1.0"), some ("2.0"), none, some ("t"), some ("l")]] }

/-- The (crime_id, month_year) key column of a production table. -/
def bqProdKeys (P : List BqProdRow) : List (Option String × Option (Nat × Nat)) :=
  P.map fun r => (r.crime_id, r.month_year)

/-- The spec's validity invariant on the production store: non-null
`crime_id`, non-null `longitude`/`latitude`, and `(crime_id, month_year)`
unique across the store. -/
def prodValidityInvariant (P : List BqProdRow) : Prop :=
  (∀ r ∈ P, r.crime_id ≠ none ∧ r.longitude ≠ none ∧ r.latitude ≠ none) ∧
    (bqProdKeys P).Nodup

instance (P : List BqProdRow) : Decidable (prodValidityInvariant P) := by
  unfold prodValidityInvariant
  infer_instance

/-! # Theorems -/

/-! ## Batch-controller bookkeeping lemmas -/

theorem processFile_mergeInvocations (st : RunState) (f : FileInput) :
    (processFile st f).mergeInvocations
      = (if st.loadingCount + 1 = 5 then st.mergeInvocations + 1
         else st.mergeInvocations) := by
  rcases f with ⟨rows, stageOk, mergeOk⟩
  unfold processFile write_csv_to_staging upload_staging_to_prod
  cases stageOk <;> cases mergeOk <;> dsimp only <;> split <;> rfl

theorem processFile_truncateInvocations (st : RunState) (f : FileInput) :
    (processFile st f).truncateInvocations
      = (if st.loadingCount + 1 = 5 then st.truncateInvocations + 1
         else st.truncateInvocations) := by
  rcases f with ⟨rows, stageOk, mergeOk⟩
  unfold processFile write_csv_to_staging upload_staging_to_prod
  cases stageOk <;> cases mergeOk <;> dsimp only <;> split <;> rfl

theorem processFile_loadingCount (st : RunState) (f : FileInput) :
    (processFile st f).loadingCount
      = (if st.loadingCount + 1 = 5 then 0 else st.loadingCount + 1) := by
  rcases f with ⟨rows, stageOk, mergeOk⟩
  unfold processFile write_csv_to_staging upload_staging_to_prod
  cases stageOk <;> cases mergeOk <;> dsimp only <;> split <;> rfl

theorem processFile_log (st : RunState) (f : FileInput) :
    (processFile st f).log
      = st.log ++ (if f.stageOk then [] else [.errorLoadingCsv])
          ++ (if st.loadingCount + 1 = 5 then
                (if f.mergeOk then [] else [.errorUploadingToProd])
              else []) := by
  rcases f with ⟨rows, stageOk, mergeOk⟩
  unfold processFile write_csv_to_staging upload_staging_to_prod
  cases stageOk <;> cases mergeOk <;> simp only [Bool.false_eq_true, if_true, if_false] <;>
    split <;> simp

/-- `loading_count` counts files processed, not files staged: over any
tail of the run it advances by one per file, firing a merge-and-truncate
every time it reaches 5, regardless of each file's `stageOk`/`mergeOk`
flags. -/
theorem pgMain_count_aux (files : List FileInput) (st : RunState)
    (h : st.loadingCount < 5) :
    (files.foldl processFile st).mergeInvocations
        = st.mergeInvocations + (st.loadingCount + files.length) / 5 ∧
    (files.foldl processFile st).truncateInvocations
        = st.truncateInvocations + (st.loadingCount + files.length) / 5 ∧
    (files.foldl processFile st).loadingCount
        = (st.loadingCount + files.length) % 5 := by
  induction files generalizing st with
  | nil =>
    simp only [List.foldl_nil, List.length_nil, Nat.add_zero]
    omega
  | cons f fs ih =>
    have h5 : (processFile st f).loadingCount < 5 := by
      rw [processFile_loadingCount]; split <;> omega
    have H := ih (processFile st f) h5
    rw [processFile_mergeInvocations, processFile_truncateInvocations,
        processFile_loadingCount] at H
    simp only [List.foldl_cons, List.length_cons]
    by_cases hc : st.loadingCount + 1 = 5 <;> simp only [hc, if_true, if_false] at H <;>
      omega

/-- Every staging-load failure is logged by the loader (and merge
failures add only `errorUploadingToProd` entries, never
`errorLoadingCsv` ones). -/
theorem pgMain_log_aux (files : List FileInput) (st : RunState) :
    (files.foldl processFile st).log.count .errorLoadingCsv
      = st.log.count .errorLoadingCsv
        + (files.filter (fun f => !f.stageOk)).length := by
  induction files generalizing st with
  | nil => simp
  | cons f fs ih =>
    rw [List.foldl_cons, ih, processFile_log]
    rw [List.count_append, List.count_append]
    by_cases hs : f.stageOk <;> by_cases hc : st.loadingCount + 1 = 5 <;>
      by_cases hm : f.mergeOk <;>
      simp [hs, hc, hm, List.count_cons, List.count_nil, List.filter_cons]
    all_goals omega

/-- C10: the batch boundary counts files processed, not files
successfully staged: for every file sequence (with arbitrary per-file
staging and merge outcomes) the controller fires merge-then-truncate
after every 5th file — `⌊n/5⌋` invocations of each over `n` files, with
the counter left at `n mod 5` — while each staging-load failure is
logged inside the loader and never propagates (the run continues and
the counter still advances). -/
theorem batch_boundary_counts_files (files : List FileInput) :
    (pgMain files).mergeInvocations = files.length / 5 ∧
    (pgMain files).truncateInvocations = files.length / 5 ∧
    (pgMain files).loadingCount = files.length % 5 ∧
    (pgMain files).log.count .errorLoadingCsv
      = (files.filter (fun f => !f.stageOk)).length := by
  have h := pgMain_count_aux files initialRunState (by decide)
  have hl := pgMain_log_aux files initialRunState
  unfold pgMain
  simp only [initialRunState] at h hl ⊢
  refine ⟨?_, ?_, ?_, ?_⟩
  · rw [h.1]; omega
  · rw [h.2.1]; omega
  · rw [h.2.2]; omega
  · rw [hl]; simp

/-- C1: with 12 input files and batch size 5 the claim expects 3 merge
invocations (batches of 5, 5 and 2) and an empty staging area at the
end of the run; the controller as coded merges only after every full
batch of 5, so over 12 files the merge runs exactly twice, only 10
files' rows reach production, and the last two files' rows are still
sitting in staging (never merged, never truncated) when the run ends. -/
theorem batchController_twelve_files_two_merges :
    (pgMain (List.replicate 12 sampleFile)).mergeInvocations = 2 ∧
    (pgMain (List.replicate 12 sampleFile)).truncateInvocations = 2 ∧
    (pgMain (List.replicate 12 sampleFile)).staging
      = [sampleStagingRow, sampleStagingRow] ∧
    (pgMain (List.replicate 12 sampleFile)).prod.length = 10 := by
  decide

/-- C2: the claim says staging is truncated only after a successful
merge, and a failed batch's staged rows are left intact for retry.  In
the code `upload_staging_to_prod` swallows its exception after logging
it, and `main` calls `truncate_staging` unconditionally: on a batch
whose merge fails, the failure is logged but staging is truncated
anyway, so the batch's rows are in neither production nor staging after
the run. -/
theorem merge_failure_batch_truncated_anyway :
    (pgMain failingMergeRun).log = [.errorUploadingToProd] ∧
    (pgMain failingMergeRun).prod = [] ∧
    (pgMain failingMergeRun).mergeInvocations = 1 ∧
    (pgMain failingMergeRun).truncateInvocations = 1 ∧
    (pgMain failingMergeRun).staging = [] := by
  decide

/-- C5: the claim says a completed query matching zero records surfaces
as the 404-equivalent, distinguishable from a backend failure's 500.
In the code the `HTTPException(404)` raised inside the `try` block is
caught by the blanket `except Exception` and re-raised as
`HTTPException(500, str(e))`, so a zero-match query and a backend fault
both reach the caller with status 500. -/
theorem empty_result_returns_500 :
    get_crimes (some [pgStagingToProd sampleStagingRow]) (fun _ => false)
      = .error (500, "404: No crimes found in the given area.") ∧
    get_crimes none (fun _ => false)
      = .error (500, "could not connect to server") := by
  constructor
  · rfl
  · rfl

/-- C3 counterexample: merging a batch holding a NULL-latitude row
(the MERGE's source filter checks `longitude` and `crime_id` but not
`latitude`) and two rows sharing a `(crime_id, month)` key (each
`WHEN NOT MATCHED` source row is inserted independently) produces a
production store violating the claimed validity invariant. -/
theorem merge_validity_invariant_cex :
    ∃ P, load_staging_to_production [bqRowNullLat, bqRowA, bqRowDupKey] [] = .ok P ∧
      ¬ prodValidityInvariant P :=
  ⟨_, rfl, by decide⟩

/-- C4 counterexample: a staging row with NULL `month` maps to a NULL
`month_year`, and SQL equality never holds on NULL, so the row matches
nothing — not even the copy of itself inserted by a previous run — and
is re-inserted by every merge: running merge twice on this staging
content leaves 2 production rows where running it once leaves 1. -/
theorem merge_idempotence_cex :
    (load_staging_to_production [bqRowNullMonth] []).map List.length = .ok 1 ∧
    ((load_staging_to_production [bqRowNullMonth] []).bind
        (load_staging_to_production [bqRowNullMonth])).map List.length = .ok 2 := by
  decide

/-- C7 counterexample: `format_dataframe` is not pure — its very first
step, `df.columns = [col.replace(" ", "_").lower() ...]`, rewrites the
caller's column labels in place, so after the call the input's columns
read `crime_id, month, ...` instead of `Crime ID, Month, ...`. -/
theorem normalizer_purity_cex :
    (format_dataframe rawDf).1.columns ≠ rawDf.columns ∧
    (format_dataframe rawDf).1.columns
      = ["crime_id", "month", "falls_within", "longitude", "latitude",
         "lsoa_code", "crime_type", "location"] := by
  decide

/-- C7 amended: the normalizer is not pure, but the mutation is limited
to the input's column labels (space-to-underscore, lowercased), applied
in place unless the empty-input check raises first; the input's row
data is never modified. -/
theorem normalizer_mutation_extent (df : DataFrame) :
    (format_dataframe df).1.rows = df.rows ∧
    (format_dataframe df).1.columns
      = (if df.columns.isEmpty || df.rows.isEmpty then df.columns
         else df.columns.map pyNormalizeCol) := by
  unfold format_dataframe
  split
  · simp_all
  · dsimp only
    split
    · split <;> simp_all
    · simp_all

/-- C9 counterexample: the merge does not return an inserted-row count
(the Python function body ends without a `return`), and what the caller
logs is a fixed success message: two merges inserting different numbers
of rows (1 versus 2) produce identical log output. -/
theorem merge_returns_no_count_cex :
    load_staging_to_production_logs [bqRowA] []
      = load_staging_to_production_logs [bqRowA, bqRowB] [] ∧
    (load_staging_to_production [bqRowA] []).map List.length = .ok 1 ∧
    (load_staging_to_production [bqRowA, bqRowB] []).map List.length = .ok 2 := by
  decide

/-- C9 amended: the merge returns no count at all; on success its caller
observes only the fixed pair of log messages, independent of how many
rows the MERGE inserted. -/
theorem merge_success_log_fixed (staging : List BqStagingRow)
    (prod P : List BqProdRow)
    (h : load_staging_to_production staging prod = .ok P) :
    load_staging_to_production_logs staging prod
      = ["Starting query job to load data from staging to production...",
         "Data successfully loaded into production table."] := by
  simp [load_staging_to_production_logs, h]

/-- Witness for `merge_success_log_fixed` at a one-row staging table. -/
theorem merge_success_log_fixed_witness :
    load_staging_to_production_logs [bqRowA] []
      = ["Starting query job to load data from staging to production...",
         "Data successfully loaded into production table."] :=
  merge_success_log_fixed [bqRowA] [] _ rfl

/-! ## Merge-engine lemmas -/

theorem mapME_ok_mem {f : α → Except ε β} {xs : List α} {ys : List β}
    (h : mapME f xs = .ok ys) : ∀ y ∈ ys, ∃ x ∈ xs, f x = .ok y := by
  induction xs generalizing ys with
  | nil =>
    unfold mapME at h
    cases h
    simp
  | cons x xs ih =>
    unfold mapME at h
    cases hf : f x with
    | error e => rw [hf] at h; cases h
    | ok y0 =>
      rw [hf] at h
      cases hm : mapME f xs with
      | error e => rw [hm] at h; cases h
      | ok ys0 =>
        rw [hm] at h
        cases h
        intro y hy
        rcases List.mem_cons.mp hy with hy0 | hy0
        · exact ⟨x, List.mem_cons_self x xs, hy0 ▸ hf⟩
        · rcases ih hm y hy0 with ⟨x', hx', hfx'⟩
          exact ⟨x', List.mem_cons_of_mem x hx', hfx'⟩

/-- The `USING` projection copies `crime_id` and `longitude` verbatim
and sets `month_year` to the parse of `month`. -/
theorem bqStageToProd_ok_fields {r : BqStagingRow} {p : BqProdRow}
    (h : bqStageToProd r = .ok p) :
    p.crime_id = r.crime_id ∧ p.longitude = r.longitude ∧
      p.month_year = r.month.bind parseYM := by
  cases hm : r.month with
  | none =>
    simp only [bqStageToProd, parseDateField, hm, Except.ok.injEq] at h
    subst h
    simp [hm]
  | some s =>
    cases hp : parseYM s with
    | none =>
      simp only [bqStageToProd, parseDateField, hm, hp] at h
      exact (Except.noConfusion h)
    | some ym =>
      simp only [bqStageToProd, parseDateField, hm, hp, Except.ok.injEq] at h
      subst h
      simp [hm, hp]

theorem sqlEq_self {α : Type _} [DecidableEq α] {a : Option α}
    (h : a.isSome) : sqlEq a a = true := by
  cases a with
  | none => cases h
  | some x => simp [sqlEq]

/-- Every source row of the MERGE has a non-null `crime_id` (the filter
keeps only such rows) and a non-null `longitude`. -/
theorem mapME_src_nonnull {staging : List BqStagingRow} {src : List BqProdRow}
    (hsrc : mapME bqStageToProd (staging.filter bqPassFilter) = .ok src) :
    ∀ s ∈ src, s.crime_id.isSome ∧ s.longitude.isSome := by
  intro s hs
  rcases mapME_ok_mem hsrc s hs with ⟨x, hx, hfx⟩
  rcases bqStageToProd_ok_fields hfx with ⟨hcid, hlon, _⟩
  have hpass : bqPassFilter x = true := (List.mem_filter.mp hx).2
  unfold bqPassFilter at hpass
  rw [Bool.and_eq_true] at hpass
  exact ⟨hcid ▸ hpass.2, hlon ▸ hpass.1⟩

/-- C4 amended: the BigQuery merge is insert-if-absent on the
`(crime_id, month_year)` key and idempotent *provided every staging row
that passes the source filter carries a parseable non-null `month`*:
one merge appends only rows whose key is absent (existing production
rows are untouched), and a second merge of the same staging content
inserts nothing, leaving the production store exactly as after the
first.  (Rows with NULL `month` defeat this — see the counterexample —
because NULL keys never compare equal in SQL.) -/
theorem merge_insert_if_absent_idempotent (staging : List BqStagingRow)
    (prod P : List BqProdRow)
    (hmonth : ∀ r ∈ staging, bqPassFilter r = true → (r.month.bind parseYM).isSome)
    (h : load_staging_to_production staging prod = .ok P) :
    (∃ inserted, P = prod ++ inserted) ∧
    load_staging_to_production staging P = .ok P := by
  unfold load_staging_to_production at h
  cases hsrc : mapME bqStageToProd (staging.filter bqPassFilter) with
  | error e => rw [hsrc] at h; cases h
  | ok src =>
    rw [hsrc] at h
    cases h
    refine ⟨⟨_, rfl⟩, ?_⟩
    have hnil :
        src.filter (fun s =>
            ! (prod ++ src.filter
                (fun s => ! prod.any (fun p => bqKeyMatch p s))).any
              (fun p => bqKeyMatch p s)) = [] := by
      rw [List.filter_eq_nil_iff]
      intro s hs
      suffices hany : ((prod ++ src.filter
          (fun s => ! prod.any (fun p => bqKeyMatch p s))).any
            (fun p => bqKeyMatch p s)) = true by
        simp [hany]
      rw [List.any_append]
      rcases mapME_ok_mem hsrc s hs with ⟨x, hx, hfx⟩
      have hpass : bqPassFilter x = true := (List.mem_filter.mp hx).2
      rcases bqStageToProd_ok_fields hfx with ⟨hcid, _, hmy⟩
      have hcidSome : s.crime_id.isSome := by
        unfold bqPassFilter at hpass
        rw [Bool.and_eq_true] at hpass
        exact hcid ▸ hpass.2
      have hmySome : s.month_year.isSome := by
        rw [hmy]
        exact hmonth x (List.mem_filter.mp hx).1 hpass
      by_cases hp : prod.any (fun p => bqKeyMatch p s) = true
      · rw [hp]; rfl
      · replace hp : prod.any (fun p => bqKeyMatch p s) = false := by
          simpa using hp
        have hmem : s ∈ src.filter (fun s => ! prod.any (fun p => bqKeyMatch p s)) := by
          rw [List.mem_filter]
          exact ⟨hs, by rw [hp]; rfl⟩
        have h2 : (src.filter (fun s => ! prod.any (fun p => bqKeyMatch p s))).any
            (fun p => bqKeyMatch p s) = true := by
          rw [List.any_eq_true]
          refine ⟨s, hmem, ?_⟩
          unfold bqKeyMatch
          rw [Bool.and_eq_true]
          exact ⟨sqlEq_self hcidSome, sqlEq_self hmySome⟩
        rw [h2, hp]
        rfl
    unfold load_staging_to_production
    rw [hsrc]
    dsimp only
    rw [hnil, List.append_nil]

/-- Witness for `merge_insert_if_absent_idempotent`: a singleton batch
with a parseable month merges to one row and a re-merge leaves the
store unchanged. -/
theorem merge_insert_if_absent_idempotent_witness :
    (∀ r ∈ [bqRowA], bqPassFilter r = true → (r.month.bind parseYM).isSome) ∧
    ∃ P, load_staging_to_production [bqRowA] [] = .ok P ∧
      (∃ inserted, P = [] ++ inserted) ∧
      load_staging_to_production [bqRowA] P = .ok P :=
  ⟨by decide, _, rfl,
    merge_insert_if_absent_idempotent [bqRowA] [] _ (by decide) rfl⟩

/-- C3 amended: after a successful merge the production store is the
old store plus the inserted rows, every inserted row has non-null
`crime_id` and non-null `longitude` (`latitude` is *not* filtered and
may be null), and `(crime_id, month_year)` stays unique across the
store provided the pre-merge store was unique, the batch's source rows
have pairwise-distinct keys, and their months are non-null. -/
theorem merge_preserves_key_uniqueness (staging : List BqStagingRow)
    (prod src P : List BqProdRow)
    (hsrc : mapME bqStageToProd (staging.filter bqPassFilter) = .ok src)
    (hmonth : ∀ s ∈ src, s.month_year.isSome)
    (hkeys : (bqProdKeys src).Nodup)
    (hprod : (bqProdKeys prod).Nodup)
    (h : load_staging_to_production staging prod = .ok P) :
    (∃ inserted, P = prod ++ inserted ∧
        ∀ r ∈ inserted, r.crime_id.isSome ∧ r.longitude.isSome) ∧
    (bqProdKeys P).Nodup := by
  unfold load_staging_to_production at h
  rw [hsrc] at h
  cases h
  constructor
  · exact ⟨_, rfl, fun r hr =>
      mapME_src_nonnull hsrc r (List.mem_filter.mp hr).1⟩
  · unfold bqProdKeys
    rw [List.map_append]
    refine List.Nodup.append hprod ?_ ?_
    · exact List.Nodup.sublist
        (List.Sublist.map _ (List.filter_sublist src)) hkeys
    · intro k hkp hki
      rcases List.mem_map.mp hkp with ⟨p, hp, hpk⟩
      rcases List.mem_map.mp hki with ⟨s, hsmem, hsk⟩
      have hfilt := (List.mem_filter.mp hsmem).2
      have hsrcmem := (List.mem_filter.mp hsmem).1
      rw [Bool.not_eq_true'] at hfilt
      have hkeq := hpk.trans hsk.symm
      rw [Prod.mk.injEq] at hkeq
      rcases mapME_src_nonnull hsrc s hsrcmem with ⟨hcid, _⟩
      have hco : prod.any (fun p => bqKeyMatch p s) = true := by
        rw [List.any_eq_true]
        refine ⟨p, hp, ?_⟩
        unfold bqKeyMatch
        rw [Bool.and_eq_true, hkeq.1, hkeq.2]
        exact ⟨sqlEq_self hcid, sqlEq_self (hmonth s hsrcmem)⟩
      rw [hco] at hfilt
      simp at hfilt

/-- Witness for `merge_preserves_key_uniqueness`: a two-row batch with
distinct keys merged into an empty store. -/
theorem merge_preserves_key_uniqueness_witness :
    ∃ src, mapME bqStageToProd ([bqRowA, bqRowB].filter bqPassFilter) = .ok src ∧
      ∃ P, load_staging_to_production [bqRowA, bqRowB] [] = .ok P ∧
        (∃ inserted, P = [] ++ inserted ∧
            ∀ r ∈ inserted, r.crime_id.isSome ∧ r.longitude.isSome) ∧
        (bqProdKeys P).Nodup :=
  ⟨_, rfl, _, rfl,
    merge_preserves_key_uniqueness [bqRowA, bqRowB] [] _ _ rfl
      (by decide) (by decide) (by decide) rfl⟩

/-! ## Normalizer lemmas -/

theorem mem_dedupFirstAux [DecidableEq α] (seen l : List α) (x : α) :
    x ∈ dedupFirstAux seen l ↔ x ∈ l ∧ x ∉ seen := by
  induction l generalizing seen with
  | nil => simp [dedupFirstAux]
  | cons y ys ih =>
    unfold dedupFirstAux
    by_cases hy : y ∈ seen
    · rw [if_pos hy, ih]
      constructor
      · rintro ⟨hx, hns⟩
        exact ⟨List.mem_cons_of_mem y hx, hns⟩
      · rintro ⟨hx, hns⟩
        rcases List.mem_cons.mp hx with hxy | hx'
        · exact absurd (hxy ▸ hy) hns
        · exact ⟨hx', hns⟩
    · rw [if_neg hy]
      constructor
      · intro hx
        rcases List.mem_cons.mp hx with hxy | hx'
        · exact ⟨hxy ▸ List.mem_cons_self y ys, hxy ▸ hy⟩
        · rcases (ih (y :: seen)).mp hx' with ⟨h1, h2⟩
          exact ⟨List.mem_cons_of_mem y h1,
            fun hs => h2 (List.mem_cons_of_mem y hs)⟩
      · rintro ⟨hx, hns⟩
        rcases List.mem_cons.mp hx with hxy | hx'
        · exact hxy ▸ List.mem_cons_self y _
        · by_cases hxy : x = y
          · exact hxy ▸ List.mem_cons_self y _
          · exact List.mem_cons_of_mem y ((ih (y :: seen)).mpr
              ⟨hx', fun hs => (List.mem_cons.mp hs).elim hxy hns⟩)

theorem nodup_dedupFirstAux [DecidableEq α] (seen l : List α) :
    (dedupFirstAux seen l).Nodup := by
  induction l generalizing seen with
  | nil => simp [dedupFirstAux]
  | cons y ys ih =>
    unfold dedupFirstAux
    by_cases hy : y ∈ seen
    · rw [if_pos hy]; exact ih seen
    · rw [if_neg hy]
      rw [List.nodup_cons]
      refine ⟨?_, ih (y :: seen)⟩
      rw [mem_dedupFirstAux]
      rintro ⟨-, hns⟩
      exact hns (List.mem_cons_self y seen)

theorem mem_dedupFirst [DecidableEq α] (l : List α) (x : α) :
    x ∈ dedupFirst l ↔ x ∈ l := by
  unfold dedupFirst
  rw [mem_dedupFirstAux]
  simp

theorem nodup_dedupFirst [DecidableEq α] (l : List α) :
    (dedupFirst l).Nodup :=
  nodup_dedupFirstAux [] l

theorem mem_validRows (rows : List (List Cell)) (r : List Cell) :
    r ∈ validRows rows ↔
      r ∈ rows ∧ (rowLongitude r).isSome ∧ (rowLatitude r).isSome ∧
        (rowCrimeId r).isSome := by
  unfold validRows
  rw [List.mem_filter, List.mem_filter]
  constructor
  · rintro ⟨⟨hr, hll⟩, hid⟩
    rw [Bool.and_eq_true] at hll
    exact ⟨hr, hll.1, hll.2, hid⟩
  · rintro ⟨hr, h1, h2, h3⟩
    exact ⟨⟨hr, by rw [h1, h2]; rfl⟩, h3⟩

/-- C8 counterexample: an input whose labels `Crime ID` and `crime ID`
both normalize to the required column `crime_id` is a non-empty table
containing all required columns, yet the normalizer raises instead of
returning a cleaned frame: `df[SELECT_COLS]` keeps both occurrences
(9 columns) and `df.columns = RENAMED_COLUMNS` raises pandas'
length-mismatch `ValueError`. -/
theorem normalizer_dup_label_cex :
    (dupLabelDf.columns.isEmpty || dupLabelDf.rows.isEmpty) = false ∧
    (SELECT_COLS.all fun c => c ∈ dupLabelDf.columns.map pyNormalizeCol) = true ∧
    (format_dataframe dupLabelDf).2
      = .error (.valueError ("Length mismatch: Expected axis has 9 elements, new values have 8 elements")) := by
  decide

/-- C8 amended: on a non-empty input whose normalized columns contain
every required source column *exactly once* (a duplicated required
label instead makes the label assignment raise a length-mismatch
`ValueError` — see the counterexample), the normalizer succeeds, its
output has no row with missing `longitude`, `latitude` or `crime_id`
(such rows are dropped, not errored), its rows are pairwise distinct,
and a selected row survives exactly when its three required fields are
present — so each group of exactly duplicated rows is collapsed to a
single one. -/
theorem normalizer_drops_invalid_and_dedups (df : DataFrame)
    (hne : (df.columns.isEmpty || df.rows.isEmpty) = false)
    (hcols : (SELECT_COLS.all fun c => c ∈ df.columns.map pyNormalizeCol) = true)
    (hwidth : (selectIdxs (df.columns.map pyNormalizeCol)).length
        = RENAMED_COLUMNS.length) :
    ∃ out, (format_dataframe df).2 = .ok out ∧
      (∀ r ∈ out.rows,
          (rowLongitude r).isSome ∧ (rowLatitude r).isSome ∧
            (rowCrimeId r).isSome) ∧
      out.rows.Nodup ∧
      (∀ r, r ∈ out.rows ↔
          r ∈ df.rows.map (selectRow (df.columns.map pyNormalizeCol)) ∧
            (rowLongitude r).isSome ∧ (rowLatitude r).isSome ∧
              (rowCrimeId r).isSome) := by
  unfold format_dataframe
  rw [hne]
  dsimp only
  rw [if_pos hcols]
  rw [if_pos hwidth]
  refine ⟨_, rfl, ?_, nodup_dedupFirst _, ?_⟩
  · intro r hr
    rw [mem_dedupFirst, mem_validRows] at hr
    exact hr.2
  · intro r
    rw [mem_dedupFirst, mem_validRows]

/-- Witness for `normalizer_drops_invalid_and_dedups` on `rawDf` (two
exact duplicates, one row missing longitude, each required column
appearing exactly once). -/
theorem normalizer_drops_invalid_and_dedups_witness :
    ((rawDf.columns.isEmpty || rawDf.rows.isEmpty) = false) ∧
    ((SELECT_COLS.all fun c => c ∈ rawDf.columns.map pyNormalizeCol) = true) ∧
    ((selectIdxs (rawDf.columns.map pyNormalizeCol)).length
        = RENAMED_COLUMNS.length) ∧
    ∃ out, (format_dataframe rawDf).2 = .ok out ∧
      (∀ r ∈ out.rows,
          (rowLongitude r).isSome ∧ (rowLatitude r).isSome ∧
            (rowCrimeId r).isSome) ∧
      out.rows.Nodup ∧
      (∀ r, r ∈ out.rows ↔
          r ∈ rawDf.rows.map (selectRow (rawDf.columns.map pyNormalizeCol)) ∧
            (rowLongitude r).isSome ∧ (rowLatitude r).isSome ∧
              (rowCrimeId r).isSome) :=
  ⟨rfl, by decide, by decide,
    normalizer_drops_invalid_and_dedups rawDf rfl (by decide) (by decide)⟩

/-! ## Decimal formatting lemmas -/

theorem removeCsvAllFuel_no_dot (fuel : Nat) :
    ∀ l : List Char, l.length ≤ fuel → '.' ∉ l →
      removeCsvAllFuel fuel l = l := by
  induction fuel with
  | zero =>
    intro l hl _
    cases fuel_eq : l with
    | nil => rfl
    | cons c cs => subst fuel_eq; simp at hl
  | succ fuel ih =>
    intro l hl hd
    cases l with
    | nil => rfl
    | cons c cs =>
      have hc : ¬ c = '.' := fun e => hd (by rw [e]; exact List.mem_cons_self _ cs)
      rw [removeCsvAllFuel, if_neg (fun hand => hc hand.1)]
      rw [ih cs (by simpa using Nat.le_of_succ_le_succ hl)
        fun hm => hd (List.mem_cons_of_mem c hm)]

end PoliceData
